import Mathlib

/-!
Verification of the v-tail glide simulator core (`core_sim.py`) against its
specification.  The per-tick integrator `step_sim` is embedded shallowly over
the real numbers: every Python float expression becomes the corresponding real
expression, `math.sin`/`cos`/`atan2`/`sqrt`/`hypot` become `Real.sin`,
`Real.cos`, `Real.arctan`, `Real.sqrt`, and the two `random.random()` draws of
a step are passed as explicit arguments `r1 r2`.  Python's
`math.atan2(1.0, m)` is `Real.arctan (1 / m)` because its second argument
`max(gr, 0.1)` is always ≥ 0.1 > 0.  Python's float `%` on a positive modulus
is `fmod` below.  State mutation becomes a function returning the new state.
-/

namespace VtailSim

/-- Saturation helper, from `clamp` in core_sim.py: `max(lo, min(hi, x))`. -/
noncomputable def clamp (x lo hi : ℝ) : ℝ := max lo (min hi x)

/-- Euclidean norm of a 2-vector, `math.hypot`. -/
noncomputable def hypot (x y : ℝ) : ℝ := Real.sqrt (x ^ 2 + y ^ 2)

/-- Python's float modulo `x % n` for `n > 0`: `x - n * floor(x / n)`. -/
noncomputable def fmod (x n : ℝ) : ℝ := x - n * (⌊x / n⌋ : ℝ)

/-- The v-tail ruddervator mixer, from `ruddervator_mix` in core_sim.py:
clamp both commands to [-1, 1], mix into left/right surface deflections,
re-derive effective pitch/yaw from the saturated surfaces. -/
noncomputable def ruddervator_mix (pitch_cmd yaw_cmd : ℝ) : ℝ × ℝ × ℝ × ℝ :=
  let pc := clamp pitch_cmd (-1) 1
  let yc := clamp yaw_cmd (-1) 1
  let left := clamp (pc + yc) (-1) 1
  let right := clamp (pc - yc) (-1) 1
  let pitch_eff := clamp (0.5 * (left + right)) (-1) 1
  let yaw_eff := clamp (0.5 * (left - right)) (-1) 1
  (left, right, pitch_eff, yaw_eff)

/-- Configuration record, from the `SimParams` dataclass in core_sim.py. -/
structure SimParams where
  g : ℝ
  start_alt_m : ℝ
  start_x_m : ℝ
  start_y_m : ℝ
  start_heading_deg : ℝ
  target_x_m : ℝ
  target_y_m : ℝ
  target_radius_m : ℝ
  mass_kg : ℝ
  v_min : ℝ
  v_max : ℝ
  v_trim : ℝ
  gr_min : ℝ
  gr_max : ℝ
  stall_pitch_eff : ℝ
  stall_v : ℝ
  stall_gr_factor : ℝ
  stall_sink_boost : ℝ
  pitch_response_per_s : ℝ
  yaw_rate_deg_s : ℝ
  bank_max_deg : ℝ
  bank_response_per_s : ℝ
  bank_sink_factor : ℝ
  drag_k : ℝ
  wind_x_mps : ℝ
  wind_y_mps : ℝ
  gust_mps : ℝ
  ground_alt_m : ℝ

/-- One history entry, from the dict appended to `s.hist` in `step_sim`
(the Python dict stores the stall flag as 1.0/0.0). -/
structure HistorySample where
  t_s : ℝ
  x_m : ℝ
  y_m : ℝ
  alt_m : ℝ
  v_air_mps : ℝ
  heading_deg : ℝ
  pitch_cmd : ℝ
  yaw_cmd : ℝ
  left_rv : ℝ
  right_rv : ℝ
  pitch_eff : ℝ
  yaw_eff : ℝ
  bank_deg : ℝ
  miss_m : ℝ
  stall : ℝ
  gr : ℝ

/-- The terminal impact record, from the dict assigned to `s.impact`. -/
structure Impact where
  t_s : ℝ
  x_m : ℝ
  y_m : ℝ
  miss_m : ℝ
  on_target : Bool

/-- Mutable simulation state, from the `SimState` dataclass in core_sim.py. -/
structure SimState where
  x_m : ℝ
  y_m : ℝ
  alt_m : ℝ
  heading_rad : ℝ
  pitch_cmd : ℝ
  yaw_cmd : ℝ
  left_rv : ℝ
  right_rv : ℝ
  pitch_eff : ℝ
  yaw_eff : ℝ
  bank_deg : ℝ
  v_air_mps : ℝ
  t_s : ℝ
  alive : Bool
  impact : Option Impact
  hist : List HistorySample

/-- Fresh state, from `reset_state` in core_sim.py (fields not passed there
take the `SimState` dataclass defaults; `math.radians(d) = d * π / 180`). -/
noncomputable def reset_state (p : SimParams) : SimState :=
  { x_m := p.start_x_m
    y_m := p.start_y_m
    alt_m := p.start_alt_m
    heading_rad := p.start_heading_deg * (Real.pi / 180)
    pitch_cmd := 0.15
    yaw_cmd := 0
    left_rv := 0
    right_rv := 0
    pitch_eff := 0.15
    yaw_eff := 0
    bank_deg := 0
    v_air_mps := p.v_trim
    t_s := 0
    alive := true
    impact := none
    hist := [] }

/-- Pitch-to-glide-ratio map, from `compute_glide_ratio` in core_sim.py. -/
noncomputable def compute_glide_ratio (p : SimParams) (pitch_eff : ℝ) : ℝ :=
  p.gr_min + (p.gr_max - p.gr_min) * ((pitch_eff + 1) * 0.5)

/-! Intermediate quantities of one `step_sim` tick, one definition per Python
assignment, each as a function of the parameters, the pre-step state and the
tick inputs (`gx`, `gy` are the sampled gust components where they enter). -/

/-- Line `s.pitch_cmd = clamp(s.pitch_cmd + pitch_in * 0.9 * dt, -1, 1)`. -/
noncomputable def pitch_cmd_next (s : SimState) (dt pitch_in : ℝ) : ℝ :=
  clamp (s.pitch_cmd + pitch_in * 0.9 * dt) (-1) 1

/-- Line `s.yaw_cmd = clamp(yaw_in, -1, 1)`. -/
noncomputable def yaw_cmd_next (yaw_in : ℝ) : ℝ := clamp yaw_in (-1) 1

/-- The mixer call of the step, on the updated commands. -/
noncomputable def mix_next (s : SimState) (dt pitch_in yaw_in : ℝ) : ℝ × ℝ × ℝ × ℝ :=
  ruddervator_mix (pitch_cmd_next s dt pitch_in) (yaw_cmd_next yaw_in)

/-- First-order lag on pitch authority:
`s.pitch_eff += (pitch_eff_cmd - s.pitch_eff) * clamp(p.pitch_response_per_s * dt, 0, 1)`. -/
noncomputable def pitch_eff_next (p : SimParams) (s : SimState) (dt pitch_in yaw_in : ℝ) : ℝ :=
  s.pitch_eff +
    ((mix_next s dt pitch_in yaw_in).2.2.1 - s.pitch_eff) *
      clamp (p.pitch_response_per_s * dt) 0 1

/-- Yaw authority is applied with no lag: `s.yaw_eff = yaw_eff_cmd`. -/
noncomputable def yaw_eff_next (s : SimState) (dt pitch_in yaw_in : ℝ) : ℝ :=
  (mix_next s dt pitch_in yaw_in).2.2.2

/-- Bank dynamics:
`s.bank_deg += (clamp(|yaw_eff| * bank_max, 0, bank_max) - s.bank_deg) * clamp(bank_response_per_s * dt, 0, 1)`. -/
noncomputable def bank_deg_next (p : SimParams) (s : SimState) (dt pitch_in yaw_in : ℝ) : ℝ :=
  s.bank_deg +
    (clamp (|yaw_eff_next s dt pitch_in yaw_in| * p.bank_max_deg) 0 p.bank_max_deg -
        s.bank_deg) *
      clamp (p.bank_response_per_s * dt) 0 1

/-- Stall test: `stall = (s.pitch_eff > p.stall_pitch_eff) or (s.v_air_mps < p.stall_v)`,
on the smoothed pitch authority and the pre-update airspeed. -/
noncomputable def stall_next (p : SimParams) (s : SimState) (dt pitch_in yaw_in : ℝ) : Bool :=
  decide (pitch_eff_next p s dt pitch_in yaw_in > p.stall_pitch_eff) ||
    decide (s.v_air_mps < p.stall_v)

/-- Glide ratio used this step: `gr = compute_glide_ratio(...)`, then
`gr *= p.stall_gr_factor` when stalled. -/
noncomputable def gr_next (p : SimParams) (s : SimState) (dt pitch_in yaw_in : ℝ) : ℝ :=
  if stall_next p s dt pitch_in yaw_in then
    compute_glide_ratio p (pitch_eff_next p s dt pitch_in yaw_in) * p.stall_gr_factor
  else compute_glide_ratio p (pitch_eff_next p s dt pitch_in yaw_in)

/-- Flight-path angle `gamma = atan2(1.0, max(gr, 0.1))`; the second argument
is ≥ 0.1 > 0 so this is `arctan (1 / max gr 0.1)`. -/
noncomputable def gamma_next (p : SimParams) (s : SimState) (dt pitch_in yaw_in : ℝ) : ℝ :=
  Real.arctan (1 / max (gr_next p s dt pitch_in yaw_in) 0.1)

/-- Bank fraction `clamp(s.bank_deg / p.bank_max_deg, 0, 1) if p.bank_max_deg > 0 else 0`,
on the updated bank. -/
noncomputable def bank_frac_next (p : SimParams) (s : SimState) (dt pitch_in yaw_in : ℝ) : ℝ :=
  if p.bank_max_deg > 0 then clamp (bank_deg_next p s dt pitch_in yaw_in / p.bank_max_deg) 0 1
  else 0

/-- Sink before the stall boost: `sink = v_air * sin(gamma)` then
`sink *= (1 + bank_sink_factor * bank_frac ** 2)`. -/
noncomputable def sink_base_next (p : SimParams) (s : SimState) (dt pitch_in yaw_in : ℝ) : ℝ :=
  s.v_air_mps * Real.sin (gamma_next p s dt pitch_in yaw_in) *
    (1 + p.bank_sink_factor * bank_frac_next p s dt pitch_in yaw_in ^ 2)

/-- Sink after the stall boost: `if stall: sink *= p.stall_sink_boost`. -/
noncomputable def sink_next (p : SimParams) (s : SimState) (dt pitch_in yaw_in : ℝ) : ℝ :=
  if stall_next p s dt pitch_in yaw_in then
    sink_base_next p s dt pitch_in yaw_in * p.stall_sink_boost
  else sink_base_next p s dt pitch_in yaw_in

/-- Forward air-relative speed `fwd = v_air * cos(gamma)`. -/
noncomputable def fwd_next (p : SimParams) (s : SimState) (dt pitch_in yaw_in : ℝ) : ℝ :=
  s.v_air_mps * Real.cos (gamma_next p s dt pitch_in yaw_in)

/-- Heading update `s.heading_rad += radians(p.yaw_rate_deg_s) * yaw_eff * dt`. -/
noncomputable def heading_next (p : SimParams) (s : SimState) (dt pitch_in yaw_in : ℝ) : ℝ :=
  s.heading_rad +
    p.yaw_rate_deg_s * (Real.pi / 180) * yaw_eff_next s dt pitch_in yaw_in * dt

/-- New x: `s.x_m += (fwd * cos(heading) + wind_x + gust_x) * dt`. -/
noncomputable def x_next (p : SimParams) (s : SimState) (dt pitch_in yaw_in gx : ℝ) : ℝ :=
  s.x_m +
    (fwd_next p s dt pitch_in yaw_in * Real.cos (heading_next p s dt pitch_in yaw_in) +
        (p.wind_x_mps + gx)) * dt

/-- New y: `s.y_m += (fwd * sin(heading) + wind_y + gust_y) * dt`. -/
noncomputable def y_next (p : SimParams) (s : SimState) (dt pitch_in yaw_in gy : ℝ) : ℝ :=
  s.y_m +
    (fwd_next p s dt pitch_in yaw_in * Real.sin (heading_next p s dt pitch_in yaw_in) +
        (p.wind_y_mps + gy)) * dt

/-- New altitude after the kinematics update: `s.alt_m -= sink * dt`
(before the ground clamp of the impact check). -/
noncomputable def alt_next (p : SimParams) (s : SimState) (dt pitch_in yaw_in : ℝ) : ℝ :=
  s.alt_m - sink_next p s dt pitch_in yaw_in * dt

/-- Specific energy after drag loss, floored at 0:
`e = g*alt + 0.5*v**2; e -= drag_k * v**3 * dt; e = max(0, e)`. -/
noncomputable def e_next (p : SimParams) (s : SimState) (dt pitch_in yaw_in : ℝ) : ℝ :=
  max 0 (p.g * alt_next p s dt pitch_in yaw_in + 0.5 * s.v_air_mps ^ 2 -
    p.drag_k * s.v_air_mps ^ 3 * dt)

/-- Recovered kinetic term `kin = max(0, e - g*alt)`. -/
noncomputable def kin_next (p : SimParams) (s : SimState) (dt pitch_in yaw_in : ℝ) : ℝ :=
  max 0 (e_next p s dt pitch_in yaw_in - p.g * alt_next p s dt pitch_in yaw_in)

/-- New airspeed `v = clamp(sqrt(2*kin), v_min, v_max)`. -/
noncomputable def v_air_next (p : SimParams) (s : SimState) (dt pitch_in yaw_in : ℝ) : ℝ :=
  clamp (Real.sqrt (2 * kin_next p s dt pitch_in yaw_in)) p.v_min p.v_max

/-- The history-sampling test of the step:
`len(s.hist) == 0 or (t - s.hist[-1]["t_s"] > 0.10)` at the new time `t`. -/
noncomputable def histCond (t : ℝ) (hist : List HistorySample) : Bool :=
  match hist.getLast? with
  | none => true
  | some h => decide (t - h.t_s > 0.10)

/-- The history sample a step would append, from the dict literal in
`step_sim` (`math.degrees(h) = h * 180 / π`, Python `% 360.0` is `fmod`). -/
noncomputable def mkSample (p : SimParams) (s : SimState) (dt pitch_in yaw_in gx gy : ℝ) :
    HistorySample :=
  { t_s := s.t_s + dt
    x_m := x_next p s dt pitch_in yaw_in gx
    y_m := y_next p s dt pitch_in yaw_in gy
    alt_m := alt_next p s dt pitch_in yaw_in
    v_air_mps := v_air_next p s dt pitch_in yaw_in
    heading_deg := fmod (heading_next p s dt pitch_in yaw_in * (180 / Real.pi)) 360
    pitch_cmd := pitch_cmd_next s dt pitch_in
    yaw_cmd := yaw_cmd_next yaw_in
    left_rv := (mix_next s dt pitch_in yaw_in).1
    right_rv := (mix_next s dt pitch_in yaw_in).2.1
    pitch_eff := pitch_eff_next p s dt pitch_in yaw_in
    yaw_eff := yaw_eff_next s dt pitch_in yaw_in
    bank_deg := bank_deg_next p s dt pitch_in yaw_in
    miss_m := hypot (x_next p s dt pitch_in yaw_in gx - p.target_x_m)
      (y_next p s dt pitch_in yaw_in gy - p.target_y_m)
    stall := if stall_next p s dt pitch_in yaw_in then 1 else 0
    gr := gr_next p s dt pitch_in yaw_in }

/-- The state after the command, attitude, kinematics, energy, time and
history updates of a live step, before the impact check. -/
noncomputable def pre_state (p : SimParams) (s : SimState) (dt pitch_in yaw_in gx gy : ℝ) :
    SimState :=
  { x_m := x_next p s dt pitch_in yaw_in gx
    y_m := y_next p s dt pitch_in yaw_in gy
    alt_m := alt_next p s dt pitch_in yaw_in
    heading_rad := heading_next p s dt pitch_in yaw_in
    pitch_cmd := pitch_cmd_next s dt pitch_in
    yaw_cmd := yaw_cmd_next yaw_in
    left_rv := (mix_next s dt pitch_in yaw_in).1
    right_rv := (mix_next s dt pitch_in yaw_in).2.1
    pitch_eff := pitch_eff_next p s dt pitch_in yaw_in
    yaw_eff := yaw_eff_next s dt pitch_in yaw_in
    bank_deg := bank_deg_next p s dt pitch_in yaw_in
    v_air_mps := v_air_next p s dt pitch_in yaw_in
    t_s := s.t_s + dt
    alive := s.alive
    impact := s.impact
    hist :=
      if histCond (s.t_s + dt) s.hist then
        s.hist ++ [mkSample p s dt pitch_in yaw_in gx gy]
      else s.hist }

/-- The impact record written at the terminal transition, from the dict
literal in `step_sim`, as a function of the post-update state. -/
noncomputable def mkImpact (p : SimParams) (s : SimState) : Impact :=
  { t_s := s.t_s
    x_m := s.x_m
    y_m := s.y_m
    miss_m := hypot (s.x_m - p.target_x_m) (s.y_m - p.target_y_m)
    on_target := decide (hypot (s.x_m - p.target_x_m) (s.y_m - p.target_y_m) ≤
      p.target_radius_m) }

/-- One integrator tick with the gust components already sampled: a no-op on
a dead state, otherwise the full update followed by the impact check
(`if s.alt_m <= p.ground_alt_m:` clamp altitude, kill, record impact). -/
noncomputable def step_core (p : SimParams) (s : SimState) (dt pitch_in yaw_in gx gy : ℝ) :
    SimState :=
  if s.alive then
    if (pre_state p s dt pitch_in yaw_in gx gy).alt_m ≤ p.ground_alt_m then
      { pre_state p s dt pitch_in yaw_in gx gy with
        alt_m := p.ground_alt_m
        alive := false
        impact := some (mkImpact p (pre_state p s dt pitch_in yaw_in gx gy)) }
    else pre_state p s dt pitch_in yaw_in gx gy
  else s

/-- `step_sim(p, s, dt, pitch_in, yaw_in)` where `r1`, `r2` are the two
`random.random()` draws of the step: each gust component is
`(r * 2 - 1) * p.gust_mps`. -/
noncomputable def step_sim (p : SimParams) (s : SimState) (dt pitch_in yaw_in r1 r2 : ℝ) :
    SimState :=
  step_core p s dt pitch_in yaw_in ((r1 * 2 - 1) * p.gust_mps) ((r2 * 2 - 1) * p.gust_mps)

/-- States reachable from `reset_state p` by any sequence of steps. -/
inductive Reachable (p : SimParams) : SimState → Prop
  | reset : Reachable p (reset_state p)
  | step (s : SimState) (dt pitch_in yaw_in r1 r2 : ℝ) :
      Reachable p s → Reachable p (step_sim p s dt pitch_in yaw_in r1 r2)

/-- Required spacing between consecutive history samples. -/
def sampleGap (a b : HistorySample) : Prop := b.t_s - a.t_s > 0.10

/-! Helper lemmas shared by the claim theorems. -/

/-- A step on a dead state returns the state unchanged. -/
theorem step_not_alive (p : SimParams) (s : SimState) (dt pitch_in yaw_in r1 r2 : ℝ)
    (h : s.alive = false) : step_sim p s dt pitch_in yaw_in r1 r2 = s := by
  unfold step_sim step_core
  rw [h]
  rfl

/-- A clamp of a value already in range is the identity. -/
theorem clamp_eq_self {x lo hi : ℝ} (h1 : lo ≤ x) (h2 : x ≤ hi) : clamp x lo hi = x := by
  unfold clamp
  rw [min_eq_right h2, max_eq_right h1]

/-- A clamp lands at or above its lower bound. -/
theorem clamp_lower (x lo hi : ℝ) : lo ≤ clamp x lo hi := le_max_left _ _

/-- A clamp lands at or below its upper bound when the bounds are ordered. -/
theorem clamp_upper {lo hi : ℝ} (x : ℝ) (h : lo ≤ hi) : clamp x lo hi ≤ hi :=
  max_le h (min_le_left _ _)

/-- Airspeed of a live step is the energy-model value, in either impact branch. -/
theorem step_v_air (p : SimParams) (s : SimState) (dt pitch_in yaw_in r1 r2 : ℝ)
    (h : s.alive = true) :
    (step_sim p s dt pitch_in yaw_in r1 r2).v_air_mps = v_air_next p s dt pitch_in yaw_in := by
  unfold step_sim step_core
  rw [h, if_pos rfl]
  split <;> rfl

/-- X-position of a live step, in either impact branch. -/
theorem step_x (p : SimParams) (s : SimState) (dt pitch_in yaw_in r1 r2 : ℝ)
    (h : s.alive = true) :
    (step_sim p s dt pitch_in yaw_in r1 r2).x_m =
      x_next p s dt pitch_in yaw_in ((r1 * 2 - 1) * p.gust_mps) := by
  unfold step_sim step_core
  rw [h, if_pos rfl]
  split <;> rfl

/-- Y-position of a live step, in either impact branch. -/
theorem step_y (p : SimParams) (s : SimState) (dt pitch_in yaw_in r1 r2 : ℝ)
    (h : s.alive = true) :
    (step_sim p s dt pitch_in yaw_in r1 r2).y_m =
      y_next p s dt pitch_in yaw_in ((r2 * 2 - 1) * p.gust_mps) := by
  unfold step_sim step_core
  rw [h, if_pos rfl]
  split <;> rfl

/-- Yaw command of a live step, in either impact branch. -/
theorem step_yaw_cmd (p : SimParams) (s : SimState) (dt pitch_in yaw_in r1 r2 : ℝ)
    (h : s.alive = true) :
    (step_sim p s dt pitch_in yaw_in r1 r2).yaw_cmd = yaw_cmd_next yaw_in := by
  unfold step_sim step_core
  rw [h, if_pos rfl]
  split <;> rfl

/-- Bank angle of a live step, in either impact branch. -/
theorem step_bank (p : SimParams) (s : SimState) (dt pitch_in yaw_in r1 r2 : ℝ)
    (h : s.alive = true) :
    (step_sim p s dt pitch_in yaw_in r1 r2).bank_deg = bank_deg_next p s dt pitch_in yaw_in := by
  unfold step_sim step_core
  rw [h, if_pos rfl]
  split <;> rfl

/-- History of a live step, in either impact branch. -/
theorem step_hist (p : SimParams) (s : SimState) (dt pitch_in yaw_in r1 r2 : ℝ)
    (h : s.alive = true) :
    (step_sim p s dt pitch_in yaw_in r1 r2).hist =
      if histCond (s.t_s + dt) s.hist then
        s.hist ++
          [mkSample p s dt pitch_in yaw_in ((r1 * 2 - 1) * p.gust_mps)
            ((r2 * 2 - 1) * p.gust_mps)]
      else s.hist := by
  unfold step_sim step_core
  rw [h, if_pos rfl]
  split <;> rfl

/-- A concrete all-zero parameter record, for instantiating theorems. -/
noncomputable def P0 : SimParams :=
  { g := 0, start_alt_m := 0, start_x_m := 0, start_y_m := 0, start_heading_deg := 0,
    target_x_m := 0, target_y_m := 0, target_radius_m := 0, mass_kg := 0,
    v_min := 0, v_max := 0, v_trim := 0, gr_min := 0, gr_max := 0,
    stall_pitch_eff := 0, stall_v := 0, stall_gr_factor := 0, stall_sink_boost := 0,
    pitch_response_per_s := 0, yaw_rate_deg_s := 0, bank_max_deg := 0,
    bank_response_per_s := 0, bank_sink_factor := 0, drag_k := 0,
    wind_x_mps := 0, wind_y_mps := 0, gust_mps := 0, ground_alt_m := 0 }

/-- A concrete live all-zero state, for instantiating theorems. -/
noncomputable def S0 : SimState :=
  { x_m := 0, y_m := 0, alt_m := 0, heading_rad := 0, pitch_cmd := 0, yaw_cmd := 0,
    left_rv := 0, right_rv := 0, pitch_eff := 0, yaw_eff := 0, bank_deg := 0,
    v_air_mps := 0, t_s := 0, alive := true, impact := none, hist := [] }

/-- A concrete dead state. -/
noncomputable def S0dead : SimState := { S0 with alive := false }

/-- A concrete live state 5 m above the ground. -/
noncomputable def S5 : SimState := { S0 with alt_m := 5 }

/-- A concrete parameter record with a 1 m/s steady x-wind and no gusts. -/
noncomputable def Pwind : SimParams := { P0 with wind_x_mps := 1 }

/-- The mixer written out with its clamps, as the contract states it. -/
theorem ruddervator_mix_eq (pc yc : ℝ) :
    ruddervator_mix pc yc =
      (clamp (clamp pc (-1) 1 + clamp yc (-1) 1) (-1) 1,
       clamp (clamp pc (-1) 1 - clamp yc (-1) 1) (-1) 1,
       clamp (0.5 * (clamp (clamp pc (-1) 1 + clamp yc (-1) 1) (-1) 1 +
         clamp (clamp pc (-1) 1 - clamp yc (-1) 1) (-1) 1)) (-1) 1,
       clamp (0.5 * (clamp (clamp pc (-1) 1 + clamp yc (-1) 1) (-1) 1 -
         clamp (clamp pc (-1) 1 - clamp yc (-1) 1) (-1) 1)) (-1) 1) := rfl

/-- C1: in every live step the new airspeed equals the energy-model value:
the specific energy `g*alt + v²/2` (at the post-kinematics altitude, with the
pre-update airspeed) loses `drag_k*v³*dt`, is floored at 0, the kinetic term
is recovered as `max 0 (e - g*alt)`, and `sqrt(2*kin)` is clamped to
`[v_min, v_max]`. -/
theorem C1_energy_speed_update (p : SimParams) (s : SimState) (dt pitch_in yaw_in r1 r2 : ℝ)
    (halive : s.alive = true) :
    (step_sim p s dt pitch_in yaw_in r1 r2).v_air_mps =
      clamp (Real.sqrt (2 * max 0
        (max 0 (p.g * alt_next p s dt pitch_in yaw_in + 0.5 * s.v_air_mps ^ 2 -
            p.drag_k * s.v_air_mps ^ 3 * dt) -
          p.g * alt_next p s dt pitch_in yaw_in)))
        p.v_min p.v_max := by
  rw [step_v_air p s dt pitch_in yaw_in r1 r2 halive]
  rfl

/-- Witness for C1 at the all-zero parameters and state, dt = 1. -/
theorem C1_energy_speed_update_witness :
    (step_sim P0 S0 1 0 0 0 0).v_air_mps =
      clamp (Real.sqrt (2 * max 0
        (max 0 (P0.g * alt_next P0 S0 1 0 0 + 0.5 * S0.v_air_mps ^ 2 -
            P0.drag_k * S0.v_air_mps ^ 3 * 1) -
          P0.g * alt_next P0 S0 1 0 0)))
        P0.v_min P0.v_max :=
  C1_energy_speed_update P0 S0 1 0 0 0 0 rfl

/-- C2: the ruddervator mixer clamps its inputs, mixes them into saturated
left/right deflections, and re-derives effective pitch/yaw from the
saturated surfaces; when neither surface saturates, `left - right` equals
`2 * yaw_eff_cmd`; and at full pitch-up plus full yaw it returns
`(1, 0, 0.5, 0.5)`. -/
theorem C2_ruddervator_mix_contract :
    (∀ pc yc : ℝ,
      ruddervator_mix pc yc =
        (clamp (clamp pc (-1) 1 + clamp yc (-1) 1) (-1) 1,
         clamp (clamp pc (-1) 1 - clamp yc (-1) 1) (-1) 1,
         clamp (0.5 * (clamp (clamp pc (-1) 1 + clamp yc (-1) 1) (-1) 1 +
           clamp (clamp pc (-1) 1 - clamp yc (-1) 1) (-1) 1)) (-1) 1,
         clamp (0.5 * (clamp (clamp pc (-1) 1 + clamp yc (-1) 1) (-1) 1 -
           clamp (clamp pc (-1) 1 - clamp yc (-1) 1) (-1) 1)) (-1) 1)) ∧
    (∀ pc yc : ℝ, -1 ≤ pc → pc ≤ 1 → -1 ≤ yc → yc ≤ 1 →
      |pc + yc| ≤ 1 → |pc - yc| ≤ 1 →
      (ruddervator_mix pc yc).1 - (ruddervator_mix pc yc).2.1 =
        2 * (ruddervator_mix pc yc).2.2.2) ∧
    ruddervator_mix 1 1 = (1, 0, 0.5, 0.5) := by
  refine ⟨fun pc yc => ruddervator_mix_eq pc yc, fun pc yc h1 h2 h3 h4 h5 h6 => ?_, ?_⟩
  · obtain ⟨h5a, h5b⟩ := abs_le.mp h5
    obtain ⟨h6a, h6b⟩ := abs_le.mp h6
    rw [ruddervator_mix_eq pc yc]
    dsimp only
    rw [clamp_eq_self h1 h2, clamp_eq_self h3 h4, clamp_eq_self h5a h5b,
      clamp_eq_self h6a h6b]
    have hy : (0.5 : ℝ) * (pc + yc - (pc - yc)) = yc := by ring
    rw [hy, clamp_eq_self h3 h4]
    ring
  · rw [ruddervator_mix_eq 1 1]
    norm_num [clamp, min_def, max_def]

/-- C4: a step on a state with `alive = false` returns the state unchanged in
every field, and repeated steps from it are likewise no-ops. -/
theorem C4_dead_step_noop (p : SimParams) (s : SimState) (dt pitch_in yaw_in r1 r2 : ℝ)
    (h : s.alive = false) :
    step_sim p s dt pitch_in yaw_in r1 r2 = s ∧
    ∀ p2 : SimParams, ∀ dt2 pi2 yi2 r12 r22 : ℝ,
      step_sim p2 (step_sim p s dt pitch_in yaw_in r1 r2) dt2 pi2 yi2 r12 r22 = s := by
  have h1 := step_not_alive p s dt pitch_in yaw_in r1 r2 h
  refine ⟨h1, fun p2 dt2 pi2 yi2 r12 r22 => ?_⟩
  rw [h1, step_not_alive p2 s dt2 pi2 yi2 r12 r22 h]

/-- Witness for C4 at a concrete dead state. -/
theorem C4_dead_step_noop_witness :
    step_sim P0 S0dead 1 1 1 0 0 = S0dead ∧
    ∀ p2 : SimParams, ∀ dt2 pi2 yi2 r12 r22 : ℝ,
      step_sim p2 (step_sim P0 S0dead 1 1 1 0 0) dt2 pi2 yi2 r12 r22 = S0dead :=
  C4_dead_step_noop P0 S0dead 1 1 1 0 0 rfl

/-- C10: when `gust_mps = 0` the step does not depend on the random draws:
two executions from equal inputs with different draws produce equal states. -/
theorem C10_gust_zero_deterministic (p : SimParams) (s : SimState)
    (dt pitch_in yaw_in r1 r2 r3 r4 : ℝ) (h : p.gust_mps = 0) :
    step_sim p s dt pitch_in yaw_in r1 r2 = step_sim p s dt pitch_in yaw_in r3 r4 := by
  unfold step_sim
  simp only [h, mul_zero]

/-- Witness for C10 at zero-gust parameters and two different draw pairs. -/
theorem C10_gust_zero_deterministic_witness :
    step_sim P0 S0 1 0 0 0 0 = step_sim P0 S0 1 0 0 1 1 :=
  C10_gust_zero_deterministic P0 S0 1 0 0 0 0 1 1 rfl

/-- C5: the stall flag is exactly "smoothed pitch authority above the
threshold, or pre-update airspeed below the threshold"; when it holds the
glide ratio of the step carries the `stall_gr_factor` and the sink rate the
`stall_sink_boost`; when it does not, neither factor is applied. -/
theorem C5_stall_logic (p : SimParams) (s : SimState) (dt pitch_in yaw_in : ℝ) :
    (stall_next p s dt pitch_in yaw_in = true ↔
      (pitch_eff_next p s dt pitch_in yaw_in > p.stall_pitch_eff ∨
        s.v_air_mps < p.stall_v)) ∧
    (stall_next p s dt pitch_in yaw_in = true →
      gr_next p s dt pitch_in yaw_in =
        p.stall_gr_factor *
          (p.gr_min +
            (p.gr_max - p.gr_min) * (pitch_eff_next p s dt pitch_in yaw_in + 1) / 2) ∧
      sink_next p s dt pitch_in yaw_in =
        sink_base_next p s dt pitch_in yaw_in * p.stall_sink_boost) ∧
    (stall_next p s dt pitch_in yaw_in = false →
      gr_next p s dt pitch_in yaw_in =
        p.gr_min +
          (p.gr_max - p.gr_min) * (pitch_eff_next p s dt pitch_in yaw_in + 1) / 2 ∧
      sink_next p s dt pitch_in yaw_in = sink_base_next p s dt pitch_in yaw_in) := by
  refine ⟨?_, fun hs => ⟨?_, ?_⟩, fun hs => ⟨?_, ?_⟩⟩
  · simp [stall_next]
  · unfold gr_next
    rw [if_pos hs]
    unfold compute_glide_ratio
    ring
  · unfold sink_next
    rw [if_pos hs]
  · unfold gr_next
    rw [if_neg (by simp [hs])]
    unfold compute_glide_ratio
    ring
  · unfold sink_next
    rw [if_neg (by simp [hs])]

/-- Counterexample to C7 as stated: a `dt ≤ 0` step is not observationally a
no-op.  At `dt = 0` a yaw input rewrites `yaw_cmd`, and at `dt = -1` a steady
wind displaces the x-position. -/
theorem C7_counterexample :
    step_sim P0 S0 0 0 1 0 0 ≠ S0 ∧
    (step_sim Pwind S5 (-1) 0 0 0 0).x_m ≠ S5.x_m := by
  constructor
  · intro h
    have hy := congrArg SimState.yaw_cmd h
    rw [step_yaw_cmd P0 S0 0 0 1 0 0 rfl] at hy
    have h1 : yaw_cmd_next 1 = 1 := by
      unfold yaw_cmd_next clamp
      norm_num
    rw [h1] at hy
    have h0 : S0.yaw_cmd = 0 := rfl
    rw [h0] at hy
    norm_num at hy
  · rw [step_x Pwind S5 (-1) 0 0 0 0 rfl]
    unfold x_next fwd_next
    have hv : S5.v_air_mps = 0 := rfl
    have hw : Pwind.wind_x_mps = 1 := rfl
    have hg : Pwind.gust_mps = 0 := rfl
    have hx : S5.x_m = 0 := rfl
    rw [hv, hw, hg, hx]
    norm_num

/-- C7 (amended): a `dt = 0` step of a live state produces zero displacement
in `x` and `y`, and leaves the altitude unchanged when the aircraft is above
ground level (control-command fields may still change and a sample may be
appended; a negative `dt` integrates backwards instead of freezing). -/
theorem C7_dt_zero_no_displacement (p : SimParams) (s : SimState)
    (pitch_in yaw_in r1 r2 : ℝ) (halive : s.alive = true) :
    (step_sim p s 0 pitch_in yaw_in r1 r2).x_m = s.x_m ∧
    (step_sim p s 0 pitch_in yaw_in r1 r2).y_m = s.y_m ∧
    (p.ground_alt_m < s.alt_m → (step_sim p s 0 pitch_in yaw_in r1 r2).alt_m = s.alt_m) := by
  have halt : alt_next p s 0 pitch_in yaw_in = s.alt_m := by
    unfold alt_next
    ring
  refine ⟨?_, ?_, fun hgt => ?_⟩
  · rw [step_x p s 0 pitch_in yaw_in r1 r2 halive]
    unfold x_next
    ring
  · rw [step_y p s 0 pitch_in yaw_in r1 r2 halive]
    unfold y_next
    ring
  · unfold step_sim step_core
    rw [halive, if_pos rfl]
    have hc : ¬ ((pre_state p s 0 pitch_in yaw_in ((r1 * 2 - 1) * p.gust_mps)
        ((r2 * 2 - 1) * p.gust_mps)).alt_m ≤ p.ground_alt_m) := by
      show ¬ (alt_next p s 0 pitch_in yaw_in ≤ p.ground_alt_m)
      rw [halt]
      exact not_le.mpr hgt
    rw [if_neg hc]
    exact halt

/-- Witness for C7 (amended) at zero parameters, 5 m above ground. -/
theorem C7_dt_zero_no_displacement_witness :
    (step_sim P0 S5 0 0 0 0 0).x_m = S5.x_m ∧
    (step_sim P0 S5 0 0 0 0 0).y_m = S5.y_m ∧
    (P0.ground_alt_m < S5.alt_m → (step_sim P0 S5 0 0 0 0 0).alt_m = S5.alt_m) :=
  C7_dt_zero_no_displacement P0 S5 0 0 0 0 rfl

/-- C3: when a live step's post-kinematics altitude is at or below the ground,
the step clamps the altitude to ground level, clears `alive`, and writes an
impact record whose miss distance is the distance from the final position to
the target and whose `on_target` flag is `miss ≤ target_radius`; no later step
ever changes that record. -/
theorem C3_impact_record (p : SimParams) (s : SimState) (dt pitch_in yaw_in r1 r2 : ℝ)
    (halive : s.alive = true)
    (hground : alt_next p s dt pitch_in yaw_in ≤ p.ground_alt_m) :
    (step_sim p s dt pitch_in yaw_in r1 r2).alt_m = p.ground_alt_m ∧
    (step_sim p s dt pitch_in yaw_in r1 r2).alive = false ∧
    ∃ i : Impact, (step_sim p s dt pitch_in yaw_in r1 r2).impact = some i ∧
      i.miss_m = hypot ((step_sim p s dt pitch_in yaw_in r1 r2).x_m - p.target_x_m)
        ((step_sim p s dt pitch_in yaw_in r1 r2).y_m - p.target_y_m) ∧
      i.on_target = decide (i.miss_m ≤ p.target_radius_m) ∧
      ∀ p2 : SimParams, ∀ dt2 pi2 yi2 r12 r22 : ℝ,
        (step_sim p2 (step_sim p s dt pitch_in yaw_in r1 r2) dt2 pi2 yi2 r12 r22).impact =
          some i := by
  have key : step_sim p s dt pitch_in yaw_in r1 r2 =
      { pre_state p s dt pitch_in yaw_in ((r1 * 2 - 1) * p.gust_mps)
          ((r2 * 2 - 1) * p.gust_mps) with
        alt_m := p.ground_alt_m
        alive := false
        impact := some (mkImpact p (pre_state p s dt pitch_in yaw_in
          ((r1 * 2 - 1) * p.gust_mps) ((r2 * 2 - 1) * p.gust_mps))) } := by
    unfold step_sim step_core
    rw [halive, if_pos rfl,
      if_pos (show (pre_state p s dt pitch_in yaw_in ((r1 * 2 - 1) * p.gust_mps)
        ((r2 * 2 - 1) * p.gust_mps)).alt_m ≤ p.ground_alt_m from hground)]
  rw [key]
  refine ⟨rfl, rfl,
    mkImpact p (pre_state p s dt pitch_in yaw_in ((r1 * 2 - 1) * p.gust_mps)
      ((r2 * 2 - 1) * p.gust_mps)),
    rfl, rfl, rfl, fun p2 dt2 pi2 yi2 r12 r22 => ?_⟩
  rw [step_not_alive p2 _ dt2 pi2 yi2 r12 r22 rfl]

/-- Witness for C3: with all-zero parameters and state and `dt = 0` the
post-kinematics altitude is 0 ≤ 0, so the impact transition fires. -/
theorem C3_impact_record_witness :
    (step_sim P0 S0 0 0 0 0 0).alt_m = P0.ground_alt_m ∧
    (step_sim P0 S0 0 0 0 0 0).alive = false ∧
    ∃ i : Impact, (step_sim P0 S0 0 0 0 0 0).impact = some i ∧
      i.miss_m = hypot ((step_sim P0 S0 0 0 0 0 0).x_m - P0.target_x_m)
        ((step_sim P0 S0 0 0 0 0 0).y_m - P0.target_y_m) ∧
      i.on_target = decide (i.miss_m ≤ P0.target_radius_m) ∧
      ∀ p2 : SimParams, ∀ dt2 pi2 yi2 r12 r22 : ℝ,
        (step_sim p2 (step_sim P0 S0 0 0 0 0 0) dt2 pi2 yi2 r12 r22).impact = some i :=
  C3_impact_record P0 S0 0 0 0 0 0 rfl
    (by
      unfold alt_next
      have : P0.ground_alt_m = 0 := rfl
      rw [this]
      have hsa : S0.alt_m = 0 := rfl
      rw [hsa]
      ring_nf
      simp)

/-- The history-sampling test, unpacked into a proposition. -/
theorem histCond_iff (t : ℝ) (l : List HistorySample) :
    histCond t l = true ↔
      (l = [] ∨ ∃ h, l.getLast? = some h ∧ t - h.t_s > 0.10) := by
  unfold histCond
  cases hl : l.getLast? with
  | none =>
    have h0 : l = [] := List.getLast?_eq_none_iff.mp hl
    simp [h0]
  | some h =>
    have hne : l ≠ [] := by
      intro h0
      subst h0
      simp at hl
    simp only [decide_eq_true_eq]
    constructor
    · intro hd
      exact Or.inr ⟨h, rfl, hd⟩
    · rintro (h0 | ⟨h2, hh2, hgt⟩)
      · exact absurd h0 hne
      · injection hh2 with hh3
        subst hh3
        exact hgt

/-- Every reachable state's history has consecutive samples more than 0.10 s
apart (helper for C6). -/
theorem reachable_hist_chain (p : SimParams) (s : SimState) (hr : Reachable p s) :
    List.Chain' sampleGap s.hist := by
  induction hr with
  | reset => exact List.chain'_nil
  | step s dt pitch_in yaw_in r1 r2 hr ih =>
    rcases Bool.eq_false_or_eq_true s.alive with ha | ha
    · rw [step_hist p s dt pitch_in yaw_in r1 r2 ha]
      split
      case isTrue hc =>
        rcases (histCond_iff _ _).mp hc with h0 | ⟨h, hlast, hgt⟩
        · rw [h0]
          exact List.chain'_singleton _
        · refine List.chain'_append.mpr ⟨ih, List.chain'_singleton _, ?_⟩
          intro a ha2 y hy
          cases hy
          rw [hlast] at ha2
          have hah : h = a := Option.mem_some_iff.mp ha2
          subst hah
          exact hgt
      case isFalse => exact ih
    · rw [step_not_alive p s dt pitch_in yaw_in r1 r2 ha]
      exact ih

/-- C6: in a live step a sample is appended exactly when the history is empty
or the new time exceeds the last sample's time by more than 0.10 s; at most
one sample is appended per step; and every reachable state's history has
consecutive entries more than 0.10 s apart. -/
theorem C6_history_sampling :
    (∀ (p : SimParams) (s : SimState) (dt pitch_in yaw_in r1 r2 : ℝ),
      s.alive = true →
      ((step_sim p s dt pitch_in yaw_in r1 r2).hist =
          s.hist ++ [mkSample p s dt pitch_in yaw_in ((r1 * 2 - 1) * p.gust_mps)
            ((r2 * 2 - 1) * p.gust_mps)] ↔
        (s.hist = [] ∨ ∃ h, s.hist.getLast? = some h ∧ s.t_s + dt - h.t_s > 0.10)) ∧
      (step_sim p s dt pitch_in yaw_in r1 r2).hist.length ≤ s.hist.length + 1) ∧
    (∀ (p : SimParams) (s : SimState), Reachable p s → List.Chain' sampleGap s.hist) := by
  refine ⟨fun p s dt pitch_in yaw_in r1 r2 ha => ⟨?_, ?_⟩, reachable_hist_chain⟩
  · rw [step_hist p s dt pitch_in yaw_in r1 r2 ha]
    constructor
    · intro heq
      by_contra hc
      rw [← histCond_iff (s.t_s + dt) s.hist] at hc
      rw [if_neg hc] at heq
      have hlen := congrArg List.length heq
      simp at hlen
    · intro hc
      rw [if_pos ((histCond_iff (s.t_s + dt) s.hist).mpr hc)]
  · rw [step_hist p s dt pitch_in yaw_in r1 r2 ha]
    split
    · simp
    · simp

/-- C8: starting from `reset_state p` with `v_min ≤ v_trim ≤ v_max`, the
airspeed stays in `[v_min, v_max]` after reset and after every step. -/
theorem C8_speed_bounds (p : SimParams) (s : SimState)
    (h1 : p.v_min ≤ p.v_trim) (h2 : p.v_trim ≤ p.v_max) (hr : Reachable p s) :
    p.v_min ≤ s.v_air_mps ∧ s.v_air_mps ≤ p.v_max := by
  induction hr with
  | reset => exact ⟨h1, h2⟩
  | step s dt pitch_in yaw_in r1 r2 hr ih =>
    rcases Bool.eq_false_or_eq_true s.alive with ha | ha
    · rw [step_v_air p s dt pitch_in yaw_in r1 r2 ha]
      unfold v_air_next
      exact ⟨clamp_lower _ _ _, clamp_upper _ (h1.trans h2)⟩
    · rw [step_not_alive p s dt pitch_in yaw_in r1 r2 ha]
      exact ih

/-- Witness for C8 at the all-zero parameters from reset. -/
theorem C8_speed_bounds_witness :
    P0.v_min ≤ (reset_state P0).v_air_mps ∧ (reset_state P0).v_air_mps ≤ P0.v_max :=
  C8_speed_bounds P0 (reset_state P0) le_rfl le_rfl Reachable.reset

/-- C9: starting from `reset_state p` with `bank_max_deg ≥ 0`, the bank angle
stays in `[0, bank_max_deg]`: reset zeroes it and each step replaces it by a
convex combination of itself and a target clamped to `[0, bank_max_deg]`. -/
theorem C9_bank_bounds (p : SimParams) (s : SimState)
    (hM : 0 ≤ p.bank_max_deg) (hr : Reachable p s) :
    0 ≤ s.bank_deg ∧ s.bank_deg ≤ p.bank_max_deg := by
  induction hr with
  | reset => exact ⟨le_rfl, hM⟩
  | step s dt pitch_in yaw_in r1 r2 hr ih =>
    rcases Bool.eq_false_or_eq_true s.alive with ha | ha
    · rw [step_bank p s dt pitch_in yaw_in r1 r2 ha]
      unfold bank_deg_next
      obtain ⟨ih0, ihM⟩ := ih
      have hT0 : 0 ≤ clamp (|yaw_eff_next s dt pitch_in yaw_in| * p.bank_max_deg) 0
          p.bank_max_deg := clamp_lower _ _ _
      have hTM : clamp (|yaw_eff_next s dt pitch_in yaw_in| * p.bank_max_deg) 0
          p.bank_max_deg ≤ p.bank_max_deg := clamp_upper _ hM
      have hB0 : 0 ≤ clamp (p.bank_response_per_s * dt) 0 1 := clamp_lower _ _ _
      have hB1 : clamp (p.bank_response_per_s * dt) 0 1 ≤ 1 := clamp_upper _ zero_le_one
      constructor
      · nlinarith [mul_nonneg (sub_nonneg.mpr hB1) ih0, mul_nonneg hB0 hT0]
      · nlinarith [mul_nonneg (sub_nonneg.mpr hB1) (sub_nonneg.mpr ihM),
          mul_nonneg hB0 (sub_nonneg.mpr hTM)]
    · rw [step_not_alive p s dt pitch_in yaw_in r1 r2 ha]
      exact ih

/-- Witness for C9 at the all-zero parameters from reset. -/
theorem C9_bank_bounds_witness :
    0 ≤ (reset_state P0).bank_deg ∧ (reset_state P0).bank_deg ≤ P0.bank_max_deg :=
  C9_bank_bounds P0 (reset_state P0) le_rfl Reachable.reset

end VtailSim
